import Mathlib

/-!
Verification development for the laya event subsystem: the converter from raw
SDL3 records to typed events (src/laya/event_types.cpp), the eager event
collection and the lazy cursor (src/laya/event_polling.cpp,
include/laya/event_polling.hpp), and the wait primitives.

The raw record is SDL3's tagged union `SDL_Event`; it is modelled
union-as-product (one sub-record per payload view), since the code only ever
reads the view selected by the discriminant.  Field widths follow SDL3's
declared types: event timestamps are 64-bit nanosecond counters, mouse
coordinates are floats (modelled as rationals), window data1/data2 are signed
32-bit integers.  The C++ implicit conversions at the assignments in
`from_sdl_event` are modelled explicitly: unsigned narrowing is reduction
modulo 2^32, float-to-int conversion is truncation toward zero.

The converter's `throw std::runtime_error` (always caught by its callers in
event_polling.cpp) is modelled as the error channel of `Except`: the two
distinct throw sites map to the two `decode_error` constructors.
-/

namespace laya

/-! SDL3 numeric event-type constants (SDL_events.h). -/

def SDL_EVENT_QUIT : Nat := 256

def SDL_EVENT_WINDOW_SHOWN : Nat := 514

def SDL_EVENT_WINDOW_HIDDEN : Nat := 515

def SDL_EVENT_WINDOW_EXPOSED : Nat := 516

def SDL_EVENT_WINDOW_MOVED : Nat := 517

def SDL_EVENT_WINDOW_RESIZED : Nat := 518

def SDL_EVENT_WINDOW_PIXEL_SIZE_CHANGED : Nat := 519

def SDL_EVENT_WINDOW_MINIMIZED : Nat := 521

def SDL_EVENT_WINDOW_MAXIMIZED : Nat := 522

def SDL_EVENT_WINDOW_RESTORED : Nat := 523

def SDL_EVENT_WINDOW_MOUSE_ENTER : Nat := 524

def SDL_EVENT_WINDOW_MOUSE_LEAVE : Nat := 525

def SDL_EVENT_WINDOW_FOCUS_GAINED : Nat := 526

def SDL_EVENT_WINDOW_FOCUS_LOST : Nat := 527

def SDL_EVENT_WINDOW_CLOSE_REQUESTED : Nat := 528

def SDL_EVENT_WINDOW_HIT_TEST : Nat := 529

def SDL_EVENT_WINDOW_ICCPROF_CHANGED : Nat := 530

def SDL_EVENT_WINDOW_DISPLAY_CHANGED : Nat := 531

def SDL_EVENT_KEY_DOWN : Nat := 768

def SDL_EVENT_KEY_UP : Nat := 769

def SDL_EVENT_TEXT_EDITING : Nat := 770

def SDL_EVENT_TEXT_INPUT : Nat := 771

def SDL_EVENT_MOUSE_MOTION : Nat := 1024

def SDL_EVENT_MOUSE_BUTTON_DOWN : Nat := 1025

def SDL_EVENT_MOUSE_BUTTON_UP : Nat := 1026

def SDL_EVENT_MOUSE_WHEEL : Nat := 1027

def SDL_EVENT_JOYSTICK_AXIS_MOTION : Nat := 1536

def SDL_EVENT_JOYSTICK_HAT_MOTION : Nat := 1538

def SDL_EVENT_JOYSTICK_BUTTON_DOWN : Nat := 1539

def SDL_EVENT_JOYSTICK_BUTTON_UP : Nat := 1540

def SDL_BUTTON_LEFT : Nat := 1

def SDL_BUTTON_MIDDLE : Nat := 2

def SDL_BUTTON_RIGHT : Nat := 3

def SDL_BUTTON_X1 : Nat := 4

def SDL_BUTTON_X2 : Nat := 5

/-! Raw SDL3 record views (union members read by from_sdl_event). -/

/-- SDL_QuitEvent view: 64-bit timestamp. -/
structure SDL_QuitEvent where
  timestamp : Nat
  deriving DecidableEq

/-- SDL_WindowEvent view: 64-bit timestamp, 32-bit window id, two signed
32-bit data fields. -/
structure SDL_WindowEvent where
  timestamp : Nat
  windowID : Nat
  data1 : Int
  data2 : Int
  deriving DecidableEq

/-- SDL_KeyboardEvent view.  `key_repeat` models the `repeat` field (a C++
keyword-free rename). -/
structure SDL_KeyboardEvent where
  timestamp : Nat
  windowID : Nat
  scancode : Nat
  key : Nat
  mod : Nat
  key_repeat : Bool
  deriving DecidableEq

/-- SDL_TextInputEvent view: `text` is the byte content of the NUL-terminated
source string (the bytes strictly before its terminator). -/
structure SDL_TextInputEvent where
  timestamp : Nat
  windowID : Nat
  text : List Nat
  deriving DecidableEq

/-- SDL_TextEditingEvent view. -/
structure SDL_TextEditingEvent where
  timestamp : Nat
  windowID : Nat
  text : List Nat
  start : Int
  length : Int
  deriving DecidableEq

/-- SDL_MouseMotionEvent view: float coordinates modelled as rationals. -/
structure SDL_MouseMotionEvent where
  timestamp : Nat
  windowID : Nat
  which : Nat
  state : Nat
  x : Rat
  y : Rat
  xrel : Rat
  yrel : Rat
  deriving DecidableEq

/-- SDL_MouseButtonEvent view. -/
structure SDL_MouseButtonEvent where
  timestamp : Nat
  windowID : Nat
  which : Nat
  button : Nat
  clicks : Nat
  x : Rat
  y : Rat
  deriving DecidableEq

/-- SDL_MouseWheelEvent view: float scroll amounts modelled as rationals. -/
structure SDL_MouseWheelEvent where
  timestamp : Nat
  windowID : Nat
  which : Nat
  x : Rat
  y : Rat
  direction : Nat
  deriving DecidableEq

/-- SDL_JoyAxisEvent view. -/
structure SDL_JoyAxisEvent where
  timestamp : Nat
  which : Nat
  axis : Nat
  value : Int
  deriving DecidableEq

/-- SDL_JoyButtonEvent view. -/
structure SDL_JoyButtonEvent where
  timestamp : Nat
  which : Nat
  button : Nat
  deriving DecidableEq

/-- SDL_JoyHatEvent view. -/
structure SDL_JoyHatEvent where
  timestamp : Nat
  which : Nat
  hat : Nat
  value : Nat
  deriving DecidableEq

/-- The raw SDL_Event tagged union, modelled union-as-product: a numeric
discriminant plus one sub-record per payload view; the converter only reads
the view selected by `type`, exactly as the C++ reads the active union
member. -/
structure SDL_Event where
  type : Nat
  quit : SDL_QuitEvent
  window : SDL_WindowEvent
  key : SDL_KeyboardEvent
  text : SDL_TextInputEvent
  edit : SDL_TextEditingEvent
  motion : SDL_MouseMotionEvent
  button : SDL_MouseButtonEvent
  wheel : SDL_MouseWheelEvent
  jaxis : SDL_JoyAxisEvent
  jbutton : SDL_JoyButtonEvent
  jhat : SDL_JoyHatEvent
  deriving DecidableEq

/-- An all-zero raw record, convenient base for concrete test records. -/
def sdl_zero : SDL_Event :=
  { type := 0
    quit := { timestamp := 0 }
    window := { timestamp := 0, windowID := 0, data1 := 0, data2 := 0 }
    key := { timestamp := 0, windowID := 0, scancode := 0, key := 0, mod := 0,
             key_repeat := false }
    text := { timestamp := 0, windowID := 0, text := [] }
    edit := { timestamp := 0, windowID := 0, text := [], start := 0, length := 0 }
    motion := { timestamp := 0, windowID := 0, which := 0, state := 0,
                x := 0, y := 0, xrel := 0, yrel := 0 }
    button := { timestamp := 0, windowID := 0, which := 0, button := 0,
                clicks := 0, x := 0, y := 0 }
    wheel := { timestamp := 0, windowID := 0, which := 0, x := 0, y := 0,
               direction := 0 }
    jaxis := { timestamp := 0, which := 0, axis := 0, value := 0 }
    jbutton := { timestamp := 0, which := 0, button := 0 }
    jhat := { timestamp := 0, which := 0, hat := 0, value := 0 } }

/-! Typed laya events (include/laya/events/event_types.hpp and
include/laya/events/event_window.hpp). -/

/-- Strong wrapper over a 32-bit SDL window id (windows/window_id.hpp). -/
structure window_id where
  value : Nat
  deriving DecidableEq

/-- quit_event: timestamp is a 32-bit field in the C++ struct. -/
structure quit_event where
  timestamp : Nat
  deriving DecidableEq

/-- window_event_type enumeration (event_window.hpp); `take_focus` is declared
but never produced by the converter. -/
inductive window_event_type where
  | shown
  | hidden
  | exposed
  | moved
  | resized
  | size_changed
  | minimized
  | maximized
  | restored
  | enter
  | leave
  | focus_gained
  | focus_lost
  | close
  | take_focus
  | hit_test
  | icc_profile_changed
  | display_changed
  deriving DecidableEq

/-- window_event_data variant (event_window.hpp): none / position / size /
display alternatives of the std::variant. -/
inductive window_event_data where
  | window_event_data_none
  | window_event_data_position (x : Int) (y : Int)
  | window_event_data_size (width : Int) (height : Int)
  | window_event_data_display (display_index : Int)
  deriving DecidableEq

/-- window_event (event_window.hpp). -/
structure window_event where
  timestamp : Nat
  id : window_id
  event_type : window_event_type
  data : window_event_data
  deriving DecidableEq

/-- key_event::state. -/
inductive key_event_state where
  | pressed
  | released
  deriving DecidableEq

/-- key_event; `key_repeat` models the `repeat` member. -/
structure key_event where
  timestamp : Nat
  id : window_id
  key_state : key_event_state
  scancode : Nat
  keycode : Nat
  mod : Nat
  key_repeat : Bool
  deriving DecidableEq

/-- text_input_event: `text` models the char[32] buffer as its 32 byte
values. -/
structure text_input_event where
  timestamp : Nat
  id : window_id
  text : List Nat
  deriving DecidableEq

/-- text_editing_event. -/
structure text_editing_event where
  timestamp : Nat
  id : window_id
  text : List Nat
  start : Int
  length : Int
  deriving DecidableEq

/-- mouse_motion_event: coordinates are signed 32-bit in the C++ struct. -/
structure mouse_motion_event where
  timestamp : Nat
  id : window_id
  which : Nat
  state : Nat
  x : Int
  y : Int
  xrel : Int
  yrel : Int
  deriving DecidableEq

/-- mouse_button_event::button enumeration. -/
inductive mouse_button where
  | left
  | middle
  | right
  | x1
  | x2
  deriving DecidableEq

/-- mouse_button_event::state. -/
inductive mouse_button_state where
  | pressed
  | released
  deriving DecidableEq

/-- mouse_button_event. -/
structure mouse_button_event where
  timestamp : Nat
  id : window_id
  which : Nat
  mouse_button : mouse_button
  button_state : mouse_button_state
  clicks : Nat
  x : Int
  y : Int
  deriving DecidableEq

/-- mouse_wheel_event: integer x/y plus float precise values. -/
structure mouse_wheel_event where
  timestamp : Nat
  id : window_id
  which : Nat
  x : Int
  y : Int
  precise_x : Rat
  precise_y : Rat
  direction : Nat
  deriving DecidableEq

/-- joystick_axis_event. -/
structure joystick_axis_event where
  timestamp : Nat
  which : Nat
  axis : Nat
  value : Int
  deriving DecidableEq

/-- joystick_button_event::state. -/
inductive joystick_button_state where
  | pressed
  | released
  deriving DecidableEq

/-- joystick_button_event. -/
structure joystick_button_event where
  timestamp : Nat
  which : Nat
  button : Nat
  button_state : joystick_button_state
  deriving DecidableEq

/-- joystick_hat_event. -/
structure joystick_hat_event where
  timestamp : Nat
  which : Nat
  hat : Nat
  value : Nat
  deriving DecidableEq

/-- The closed typed-event sum: std::variant over the eleven event structs. -/
inductive event where
  | quit (e : quit_event)
  | window (e : window_event)
  | key (e : key_event)
  | text_input (e : text_input_event)
  | text_editing (e : text_editing_event)
  | mouse_motion (e : mouse_motion_event)
  | mouse_button (e : mouse_button_event)
  | mouse_wheel (e : mouse_wheel_event)
  | joystick_axis (e : joystick_axis_event)
  | joystick_button (e : joystick_button_event)
  | joystick_hat (e : joystick_hat_event)
  deriving DecidableEq

/-- Decode failure taxonomy: the two distinct `throw std::runtime_error`
sites of event_types.cpp, carrying the raw discriminant each message
embeds. -/
inductive decode_error where
  | unknown_window_kind (raw : Nat)
  | unsupported_kind (raw : Nat)
  deriving DecidableEq

/-! The converter (src/laya/event_types.cpp). -/

/-- Unsigned narrowing at the C++ assignments of a 64-bit SDL timestamp to a
32-bit struct field: reduction modulo 2^32. -/
def u32 (n : Nat) : Nat := n % 4294967296

/-- C++ float-to-int conversion at the mouse coordinate assignments:
truncation toward zero. -/
def float_to_int32 (x : Rat) : Int := Int.tdiv x.num (x.den : Int)

/-- strncpy(dst, src, 31) into the char[32] buffer followed by dst[31] = 0:
copy up to 31 bytes of the source string, zero-fill the rest of the 32-byte
buffer.  `src` is the byte content of the NUL-terminated source. -/
def sdl_text_copy (src : List Nat) : List Nat :=
  let copied := (src.takeWhile (fun b => b ≠ 0)).take 31
  copied ++ List.replicate (32 - copied.length) 0

/-- Reading a fixed buffer as a NUL-terminated C string: the bytes before the
first zero. -/
def c_str (buf : List Nat) : List Nat := buf.takeWhile (fun b => b ≠ 0)

/-- convert_window_event_data (event_types.cpp:17): map an SDL window event
discriminant and its data1/data2 to the laya window kind and payload; unknown
discriminants throw, modelled as the error channel. -/
def convert_window_event_data (sdl_type : Nat) (data1 data2 : Int) :
    Except decode_error (window_event_type × window_event_data) :=
  if sdl_type = SDL_EVENT_WINDOW_SHOWN then
    .ok (.shown, .window_event_data_none)
  else if sdl_type = SDL_EVENT_WINDOW_HIDDEN then
    .ok (.hidden, .window_event_data_none)
  else if sdl_type = SDL_EVENT_WINDOW_EXPOSED then
    .ok (.exposed, .window_event_data_none)
  else if sdl_type = SDL_EVENT_WINDOW_MOVED then
    .ok (.moved, .window_event_data_position data1 data2)
  else if sdl_type = SDL_EVENT_WINDOW_RESIZED then
    .ok (.resized, .window_event_data_size data1 data2)
  else if sdl_type = SDL_EVENT_WINDOW_PIXEL_SIZE_CHANGED then
    .ok (.size_changed, .window_event_data_size data1 data2)
  else if sdl_type = SDL_EVENT_WINDOW_MINIMIZED then
    .ok (.minimized, .window_event_data_none)
  else if sdl_type = SDL_EVENT_WINDOW_MAXIMIZED then
    .ok (.maximized, .window_event_data_none)
  else if sdl_type = SDL_EVENT_WINDOW_RESTORED then
    .ok (.restored, .window_event_data_none)
  else if sdl_type = SDL_EVENT_WINDOW_MOUSE_ENTER then
    .ok (.enter, .window_event_data_none)
  else if sdl_type = SDL_EVENT_WINDOW_MOUSE_LEAVE then
    .ok (.leave, .window_event_data_none)
  else if sdl_type = SDL_EVENT_WINDOW_FOCUS_GAINED then
    .ok (.focus_gained, .window_event_data_none)
  else if sdl_type = SDL_EVENT_WINDOW_FOCUS_LOST then
    .ok (.focus_lost, .window_event_data_none)
  else if sdl_type = SDL_EVENT_WINDOW_CLOSE_REQUESTED then
    .ok (.close, .window_event_data_none)
  else if sdl_type = SDL_EVENT_WINDOW_HIT_TEST then
    .ok (.hit_test, .window_event_data_none)
  else if sdl_type = SDL_EVENT_WINDOW_ICCPROF_CHANGED then
    .ok (.icc_profile_changed, .window_event_data_none)
  else if sdl_type = SDL_EVENT_WINDOW_DISPLAY_CHANGED then
    .ok (.display_changed, .window_event_data_display data1)
  else
    .error (.unknown_window_kind sdl_type)

/-- The seventeen case labels grouped into the window branch of the switch in
from_sdl_event. -/
def sdl_window_event_types : List Nat :=
  [SDL_EVENT_WINDOW_SHOWN, SDL_EVENT_WINDOW_HIDDEN, SDL_EVENT_WINDOW_EXPOSED,
   SDL_EVENT_WINDOW_MOVED, SDL_EVENT_WINDOW_RESIZED,
   SDL_EVENT_WINDOW_PIXEL_SIZE_CHANGED, SDL_EVENT_WINDOW_MINIMIZED,
   SDL_EVENT_WINDOW_MAXIMIZED, SDL_EVENT_WINDOW_RESTORED,
   SDL_EVENT_WINDOW_MOUSE_ENTER, SDL_EVENT_WINDOW_MOUSE_LEAVE,
   SDL_EVENT_WINDOW_FOCUS_GAINED, SDL_EVENT_WINDOW_FOCUS_LOST,
   SDL_EVENT_WINDOW_CLOSE_REQUESTED, SDL_EVENT_WINDOW_HIT_TEST,
   SDL_EVENT_WINDOW_ICCPROF_CHANGED, SDL_EVENT_WINDOW_DISPLAY_CHANGED]

/-- The mouse button mapping in the SDL_EVENT_MOUSE_BUTTON_DOWN/UP case of
from_sdl_event: codes 1..5 map to the named buttons, anything else falls to
the default branch, which selects left. -/
def sdl_button_to_button (b : Nat) : mouse_button :=
  if b = SDL_BUTTON_LEFT then .left
  else if b = SDL_BUTTON_MIDDLE then .middle
  else if b = SDL_BUTTON_RIGHT then .right
  else if b = SDL_BUTTON_X1 then .x1
  else if b = SDL_BUTTON_X2 then .x2
  else .left

/-- from_sdl_event (event_types.cpp:78): dispatch on the raw discriminant
into one of the eleven typed variants; the default branch throws
`unsupported_kind`, modelled as the error channel. -/
def from_sdl_event (ev : SDL_Event) : Except decode_error event :=
  if ev.type = SDL_EVENT_QUIT then
    .ok (.quit { timestamp := u32 ev.quit.timestamp })
  else if ev.type ∈ sdl_window_event_types then
    match convert_window_event_data ev.type ev.window.data1 ev.window.data2 with
    | .ok (t, d) =>
        .ok (.window { timestamp := u32 ev.window.timestamp
                       id := { value := ev.window.windowID }
                       event_type := t
                       data := d })
    | .error e => .error e
  else if ev.type = SDL_EVENT_KEY_DOWN ∨ ev.type = SDL_EVENT_KEY_UP then
    .ok (.key { timestamp := u32 ev.key.timestamp
                id := { value := ev.key.windowID }
                key_state := if ev.type = SDL_EVENT_KEY_DOWN then .pressed
                             else .released
                scancode := ev.key.scancode
                keycode := ev.key.key
                mod := ev.key.mod
                key_repeat := ev.key.key_repeat })
  else if ev.type = SDL_EVENT_TEXT_INPUT then
    .ok (.text_input { timestamp := u32 ev.text.timestamp
                       id := { value := ev.text.windowID }
                       text := sdl_text_copy ev.text.text })
  else if ev.type = SDL_EVENT_TEXT_EDITING then
    .ok (.text_editing { timestamp := u32 ev.edit.timestamp
                         id := { value := ev.edit.windowID }
                         text := sdl_text_copy ev.edit.text
                         start := ev.edit.start
                         length := ev.edit.length })
  else if ev.type = SDL_EVENT_MOUSE_MOTION then
    .ok (.mouse_motion { timestamp := u32 ev.motion.timestamp
                         id := { value := ev.motion.windowID }
                         which := ev.motion.which
                         state := ev.motion.state
                         x := float_to_int32 ev.motion.x
                         y := float_to_int32 ev.motion.y
                         xrel := float_to_int32 ev.motion.xrel
                         yrel := float_to_int32 ev.motion.yrel })
  else if ev.type = SDL_EVENT_MOUSE_BUTTON_DOWN ∨
          ev.type = SDL_EVENT_MOUSE_BUTTON_UP then
    .ok (.mouse_button { timestamp := u32 ev.button.timestamp
                         id := { value := ev.button.windowID }
                         which := ev.button.which
                         mouse_button := sdl_button_to_button ev.button.button
                         button_state := if ev.type = SDL_EVENT_MOUSE_BUTTON_DOWN
                                         then .pressed else .released
                         clicks := ev.button.clicks
                         x := float_to_int32 ev.button.x
                         y := float_to_int32 ev.button.y })
  else if ev.type = SDL_EVENT_MOUSE_WHEEL then
    .ok (.mouse_wheel { timestamp := u32 ev.wheel.timestamp
                        id := { value := ev.wheel.windowID }
                        which := ev.wheel.which
                        x := float_to_int32 ev.wheel.x
                        y := float_to_int32 ev.wheel.y
                        precise_x := ev.wheel.x
                        precise_y := ev.wheel.y
                        direction := ev.wheel.direction })
  else if ev.type = SDL_EVENT_JOYSTICK_AXIS_MOTION then
    .ok (.joystick_axis { timestamp := u32 ev.jaxis.timestamp
                          which := ev.jaxis.which
                          axis := ev.jaxis.axis
                          value := ev.jaxis.value })
  else if ev.type = SDL_EVENT_JOYSTICK_BUTTON_DOWN ∨
          ev.type = SDL_EVENT_JOYSTICK_BUTTON_UP then
    .ok (.joystick_button { timestamp := u32 ev.jbutton.timestamp
                            which := ev.jbutton.which
                            button := ev.jbutton.button
                            button_state :=
                              if ev.type = SDL_EVENT_JOYSTICK_BUTTON_DOWN
                              then .pressed else .released })
  else if ev.type = SDL_EVENT_JOYSTICK_HAT_MOTION then
    .ok (.joystick_hat { timestamp := u32 ev.jhat.timestamp
                         which := ev.jhat.which
                         hat := ev.jhat.hat
                         value := ev.jhat.value })
  else
    .error (.unsupported_kind ev.type)

/-- All top-level discriminants handled by the switch in from_sdl_event. -/
def known_event_types : List Nat :=
  SDL_EVENT_QUIT :: sdl_window_event_types ++
    [SDL_EVENT_KEY_DOWN, SDL_EVENT_KEY_UP, SDL_EVENT_TEXT_EDITING,
     SDL_EVENT_TEXT_INPUT, SDL_EVENT_MOUSE_MOTION, SDL_EVENT_MOUSE_BUTTON_DOWN,
     SDL_EVENT_MOUSE_BUTTON_UP, SDL_EVENT_MOUSE_WHEEL,
     SDL_EVENT_JOYSTICK_AXIS_MOTION, SDL_EVENT_JOYSTICK_BUTTON_DOWN,
     SDL_EVENT_JOYSTICK_BUTTON_UP, SDL_EVENT_JOYSTICK_HAT_MOTION]

/-! Eager collection, wait primitives, and the lazy cursor
(src/laya/event_polling.cpp, include/laya/event_polling.hpp).  The external
engine queue is modelled as the snapshot list of raw records SDL_PollEvent
will deliver, in arrival order; an exhausted list is SDL_PollEvent returning
false.  For the wait primitives the list is the sequence of records the
underlying wait delivers, an exhausted list standing for SDL_WaitEvent
returning false (respectively the timeout window closing with no further
record). -/

/-- The polling loop of the event_range constructor (event_polling.cpp:55):
pull every pending record, keep successful conversions in arrival order, skip
records whose conversion fails. -/
def poll_drain : List SDL_Event → List event
  | [] => []
  | e :: rest =>
    match from_sdl_event e with
    | .ok ev => ev :: poll_drain rest
    | .error _ => poll_drain rest

/-- event_range: the owned, materialized sequence. -/
structure event_range where
  m_events : List event
  deriving DecidableEq

/-- event_range::event_range(): drain the pending queue at construction. -/
def event_range_construct (pending : List SDL_Event) : event_range :=
  { m_events := poll_drain pending }

/-- wait_event (event_polling.cpp:10): block for one record; on conversion
failure retry the whole wait; return none only when the underlying wait
fails. -/
def wait_event : List SDL_Event → Option event
  | [] => none
  | e :: rest =>
    match from_sdl_event e with
    | .ok ev => some ev
    | .error _ => wait_event rest

/-- wait_event_timeout (event_polling.cpp:23): block up to the timeout for
one record; on conversion failure return none for this call without retrying
against the remaining budget. -/
def wait_event_timeout : List SDL_Event → Option event
  | [] => none
  | e :: _ =>
    match from_sdl_event e with
    | .ok ev => some ev
    | .error _ => none

/-- event_view::iterator state: the single embedded current-event slot and
the has-current-event flag. -/
structure event_view_iterator where
  m_current_event : event
  m_has_event : Bool
  deriving DecidableEq

/-- The value-initialized `event m_current_event{}`: the variant's first
alternative, a zeroed quit_event. -/
def default_event : event := .quit { timestamp := 0 }

/-- event_view::iterator::fetch_next (event_polling.cpp:81): pull records
until one converts (new current event, flag set, queue advanced past it) or
the queue is exhausted (flag cleared, current slot left as it was). -/
def fetch_next (cur : event) :
    List SDL_Event → event_view_iterator × List SDL_Event
  | [] => ({ m_current_event := cur, m_has_event := false }, [])
  | e :: rest =>
    match from_sdl_event e with
    | .ok ev => ({ m_current_event := ev, m_has_event := true }, rest)
    | .error _ => fetch_next cur rest

/-- event_view::iterator::operator== (event_polling.hpp:176): equality is
has-flag equality only. -/
def iterator_beq (a b : event_view_iterator) : Bool :=
  a.m_has_event == b.m_has_event

/-- event_view::end(): the default-constructed sentinel iterator. -/
def end_iterator : event_view_iterator :=
  { m_current_event := default_event, m_has_event := false }

/-- event_view::begin(): iterator{true}, i.e. a default slot immediately
advanced by fetch_next; returns the iterator and the rest of the queue. -/
def begin_state (pending : List SDL_Event) :
    event_view_iterator × List SDL_Event :=
  fetch_next default_event pending

mutual

/-- Fully draining the cursor: collect the current event, then keep stepping
(operator++ is fetch_next) until the terminal state. -/
def drain_iterator : event_view_iterator → List SDL_Event → List event
  | { m_has_event := false, .. }, _ => []
  | { m_current_event := cur, m_has_event := true }, q => cur :: drain_next q

/-- The scan the repeated fetch_next calls perform over the remaining
queue while draining. -/
def drain_next : List SDL_Event → List event
  | [] => []
  | e :: rest =>
    match from_sdl_event e with
    | .ok ev =>
        drain_iterator { m_current_event := ev, m_has_event := true } rest
    | .error _ => drain_next rest

end

/-- Repeated fetch_next until the queue is exhausted, starting from a cursor
that currently holds `cur`: the final (terminal) iterator state. -/
def exhaust_scan (cur : event) : List SDL_Event → event_view_iterator
  | [] => { m_current_event := cur, m_has_event := false }
  | e :: rest =>
    match from_sdl_event e with
    | .ok ev => exhaust_scan ev rest
    | .error _ => exhaust_scan cur rest

/-- Advancing a cursor to completion over the remaining queue. -/
def advance_to_end (it : event_view_iterator) (q : List SDL_Event) :
    event_view_iterator :=
  if it.m_has_event then exhaust_scan it.m_current_event q else it

/-! Shared helper lemmas. -/

/-- fetch_next past a record whose conversion fails scans on unchanged. -/
theorem fetch_next_cons_error (cur : event) (e : SDL_Event)
    (q : List SDL_Event) (err : decode_error)
    (h : from_sdl_event e = .error err) :
    fetch_next cur (e :: q) = fetch_next cur q := by
  simp [fetch_next, h]

/-- fetch_next stops at a record that converts. -/
theorem fetch_next_cons_ok (cur : event) (e : SDL_Event)
    (q : List SDL_Event) (ev : event) (h : from_sdl_event e = .ok ev) :
    fetch_next cur (e :: q) =
      ({ m_current_event := ev, m_has_event := true }, q) := by
  simp [fetch_next, h]

/-- The draining scan agrees with the eager polling loop. -/
theorem drain_next_eq_poll_drain (q : List SDL_Event) :
    drain_next q = poll_drain q := by
  induction q with
  | nil => simp [drain_next, poll_drain]
  | cons e rest ih =>
    cases h : from_sdl_event e with
    | ok ev => simp [drain_next, poll_drain, drain_iterator, h, ih]
    | error err => simp [drain_next, poll_drain, h, ih]

/-- Draining from a live cursor is the current event followed by the drain of
the cursor obtained by one fetch_next step: the drain really is the
operator++ loop. -/
theorem drain_iterator_step (cur : event) (q : List SDL_Event) :
    drain_iterator { m_current_event := cur, m_has_event := true } q =
      cur :: drain_iterator (fetch_next cur q).1 (fetch_next cur q).2 := by
  induction q generalizing cur with
  | nil => simp [drain_iterator, drain_next, fetch_next]
  | cons e rest ih =>
    cases h : from_sdl_event e with
    | ok ev => simp [drain_iterator, drain_next, fetch_next, h]
    | error err =>
      have h1 := ih cur
      simp [drain_iterator, drain_next, fetch_next, h] at h1 ⊢
      exact h1

/-- The state reached by scanning the queue to exhaustion is terminal. -/
theorem exhaust_scan_flag (cur : event) (q : List SDL_Event) :
    (exhaust_scan cur q).m_has_event = false := by
  induction q generalizing cur with
  | nil => rfl
  | cons e rest ih =>
    cases h : from_sdl_event e with
    | ok ev => simp [exhaust_scan, h, ih]
    | error err => simp [exhaust_scan, h, ih]

/-- Advancing any cursor to completion yields a terminal cursor. -/
theorem advance_to_end_flag (it : event_view_iterator)
    (q : List SDL_Event) : (advance_to_end it q).m_has_event = false := by
  unfold advance_to_end
  cases h : it.m_has_event with
  | true => simp [h, exhaust_scan_flag]
  | false => simp [h]

/-- The eager polling loop is the order-preserving filterMap of the
converter over the snapshot. -/
theorem poll_drain_eq_filterMap (q : List SDL_Event) :
    poll_drain q = q.filterMap (fun r => (from_sdl_event r).toOption) := by
  induction q with
  | nil => rfl
  | cons e rest ih =>
    cases h : from_sdl_event e with
    | ok ev => simp [poll_drain, h, ih, Except.toOption]
    | error err => simp [poll_drain, h, ih, Except.toOption]

/-- The window-kind dispatch rejects discriminants outside the seventeen
grouped case labels. -/
theorem convert_window_event_data_not_mem (sdl_type : Nat) (d1 d2 : Int)
    (h : sdl_type ∉ sdl_window_event_types) :
    convert_window_event_data sdl_type d1 d2 =
      .error (.unknown_window_kind sdl_type) := by
  simp only [sdl_window_event_types, List.mem_cons, List.not_mem_nil,
    not_or, or_false] at h
  obtain ⟨h1, h2, h3, h4, h5, h6, h7, h8, h9, h10, h11, h12, h13, h14, h15,
    h16, h17⟩ := h
  simp [convert_window_event_data, h1, h2, h3, h4, h5, h6, h7, h8, h9, h10,
    h11, h12, h13, h14, h15, h16, h17]

set_option maxHeartbeats 1600000 in
/-- The window-kind dispatch never produces take_focus. -/
theorem convert_window_event_data_ne_take_focus (sdl_type : Nat)
    (d1 d2 : Int) (t : window_event_type) (d : window_event_data)
    (h : convert_window_event_data sdl_type d1 d2 = .ok (t, d)) :
    t ≠ window_event_type.take_focus := by
  by_cases hm : sdl_type ∈ sdl_window_event_types
  · simp only [sdl_window_event_types, List.mem_cons, List.not_mem_nil,
      or_false] at hm
    rcases hm with h1 | h1 | h1 | h1 | h1 | h1 | h1 | h1 | h1 | h1 | h1 |
      h1 | h1 | h1 | h1 | h1 | h1 <;>
      subst h1 <;>
      simp only [convert_window_event_data, SDL_EVENT_WINDOW_SHOWN,
        SDL_EVENT_WINDOW_HIDDEN, SDL_EVENT_WINDOW_EXPOSED,
        SDL_EVENT_WINDOW_MOVED, SDL_EVENT_WINDOW_RESIZED,
        SDL_EVENT_WINDOW_PIXEL_SIZE_CHANGED, SDL_EVENT_WINDOW_MINIMIZED,
        SDL_EVENT_WINDOW_MAXIMIZED, SDL_EVENT_WINDOW_RESTORED,
        SDL_EVENT_WINDOW_MOUSE_ENTER, SDL_EVENT_WINDOW_MOUSE_LEAVE,
        SDL_EVENT_WINDOW_FOCUS_GAINED, SDL_EVENT_WINDOW_FOCUS_LOST,
        SDL_EVENT_WINDOW_CLOSE_REQUESTED, SDL_EVENT_WINDOW_HIT_TEST,
        SDL_EVENT_WINDOW_ICCPROF_CHANGED, SDL_EVENT_WINDOW_DISPLAY_CHANGED,
        Nat.reduceEqDiff, if_true, if_false, reduceIte, Except.ok.injEq,
        Prod.mk.injEq] at h <;>
      obtain ⟨rfl, rfl⟩ := h <;> decide
  · rw [convert_window_event_data_not_mem sdl_type d1 d2 hm] at h
    exact Except.noConfusion h

/-- The converter rejects any top-level discriminant outside the known set,
reporting the raw discriminant. -/
theorem from_sdl_event_not_known (ev : SDL_Event)
    (h : ev.type ∉ known_event_types) :
    from_sdl_event ev = .error (.unsupported_kind ev.type) := by
  simp only [known_event_types, List.mem_cons, List.mem_append,
    not_or] at h
  obtain ⟨hq, hw, hk⟩ := h
  simp only [List.mem_cons, List.not_mem_nil, not_or, or_false] at hk
  obtain ⟨h1, h2, h3, h4, h5, h6, h7, h8, h9, h10, h11, h12⟩ := hk
  simp [from_sdl_event, hq, hw, h1, h2, h3, h4, h5, h6, h7, h8, h9, h10,
    h11, h12]

/-- On the seventeen grouped window discriminants, from_sdl_event is the
window-kind dispatch followed by wrapping kind and payload into a
window_event together with the narrowed timestamp and the window id. -/
theorem from_sdl_event_window_mem (ev : SDL_Event)
    (hm : ev.type ∈ sdl_window_event_types) :
    from_sdl_event ev =
      (convert_window_event_data ev.type ev.window.data1
          ev.window.data2).map
        (fun p => .window { timestamp := u32 ev.window.timestamp
                            id := { value := ev.window.windowID }
                            event_type := p.1
                            data := p.2 }) := by
  have hq : ¬ ev.type = SDL_EVENT_QUIT := by
    simp only [sdl_window_event_types, List.mem_cons, List.not_mem_nil,
      or_false] at hm
    rcases hm with h1 | h1 | h1 | h1 | h1 | h1 | h1 | h1 | h1 | h1 | h1 |
      h1 | h1 | h1 | h1 | h1 | h1 <;> (rw [h1]; decide)
  unfold from_sdl_event
  rw [if_neg hq, if_pos hm]
  cases hcw : convert_window_event_data ev.type ev.window.data1
      ev.window.data2 with
  | ok p => simp [Except.map]
  | error e => simp [Except.map]

/-! Claim theorems. -/

/-- C1: for every recognized window discriminant the converter yields the
payload the kind-to-payload table documents: moved gives
position{data1,data2}; resized and size_changed give size{data1,data2};
display_changed gives display{data1}; every other recognized window kind
gives the none payload whatever data1/data2 hold. -/
theorem window_payload_table (d1 d2 : Int) (ev : SDL_Event) :
    convert_window_event_data SDL_EVENT_WINDOW_MOVED d1 d2 =
      .ok (.moved, .window_event_data_position d1 d2) ∧
    convert_window_event_data SDL_EVENT_WINDOW_RESIZED d1 d2 =
      .ok (.resized, .window_event_data_size d1 d2) ∧
    convert_window_event_data SDL_EVENT_WINDOW_PIXEL_SIZE_CHANGED d1 d2 =
      .ok (.size_changed, .window_event_data_size d1 d2) ∧
    convert_window_event_data SDL_EVENT_WINDOW_DISPLAY_CHANGED d1 d2 =
      .ok (.display_changed, .window_event_data_display d1) ∧
    convert_window_event_data SDL_EVENT_WINDOW_SHOWN d1 d2 =
      .ok (.shown, .window_event_data_none) ∧
    convert_window_event_data SDL_EVENT_WINDOW_HIDDEN d1 d2 =
      .ok (.hidden, .window_event_data_none) ∧
    convert_window_event_data SDL_EVENT_WINDOW_EXPOSED d1 d2 =
      .ok (.exposed, .window_event_data_none) ∧
    convert_window_event_data SDL_EVENT_WINDOW_MINIMIZED d1 d2 =
      .ok (.minimized, .window_event_data_none) ∧
    convert_window_event_data SDL_EVENT_WINDOW_MAXIMIZED d1 d2 =
      .ok (.maximized, .window_event_data_none) ∧
    convert_window_event_data SDL_EVENT_WINDOW_RESTORED d1 d2 =
      .ok (.restored, .window_event_data_none) ∧
    convert_window_event_data SDL_EVENT_WINDOW_MOUSE_ENTER d1 d2 =
      .ok (.enter, .window_event_data_none) ∧
    convert_window_event_data SDL_EVENT_WINDOW_MOUSE_LEAVE d1 d2 =
      .ok (.leave, .window_event_data_none) ∧
    convert_window_event_data SDL_EVENT_WINDOW_FOCUS_GAINED d1 d2 =
      .ok (.focus_gained, .window_event_data_none) ∧
    convert_window_event_data SDL_EVENT_WINDOW_FOCUS_LOST d1 d2 =
      .ok (.focus_lost, .window_event_data_none) ∧
    convert_window_event_data SDL_EVENT_WINDOW_CLOSE_REQUESTED d1 d2 =
      .ok (.close, .window_event_data_none) ∧
    convert_window_event_data SDL_EVENT_WINDOW_HIT_TEST d1 d2 =
      .ok (.hit_test, .window_event_data_none) ∧
    convert_window_event_data SDL_EVENT_WINDOW_ICCPROF_CHANGED d1 d2 =
      .ok (.icc_profile_changed, .window_event_data_none) ∧
    from_sdl_event { ev with type := SDL_EVENT_WINDOW_MOVED } =
      .ok (.window { timestamp := u32 ev.window.timestamp
                     id := { value := ev.window.windowID }
                     event_type := .moved
                     data := .window_event_data_position ev.window.data1
                               ev.window.data2 }) ∧
    from_sdl_event { ev with type := SDL_EVENT_WINDOW_RESIZED } =
      .ok (.window { timestamp := u32 ev.window.timestamp
                     id := { value := ev.window.windowID }
                     event_type := .resized
                     data := .window_event_data_size ev.window.data1
                               ev.window.data2 }) ∧
    from_sdl_event { ev with type := SDL_EVENT_WINDOW_DISPLAY_CHANGED } =
      .ok (.window { timestamp := u32 ev.window.timestamp
                     id := { value := ev.window.windowID }
                     event_type := .display_changed
                     data := .window_event_data_display ev.window.data1 }) ∧
    from_sdl_event { ev with type := SDL_EVENT_WINDOW_SHOWN } =
      .ok (.window { timestamp := u32 ev.window.timestamp
                     id := { value := ev.window.windowID }
                     event_type := .shown
                     data := .window_event_data_none }) :=
  ⟨rfl, rfl, rfl, rfl, rfl, rfl, rfl, rfl, rfl, rfl, rfl, rfl, rfl, rfl,
   rfl, rfl, rfl, rfl, rfl, rfl, rfl⟩

/-- C2: a raw record whose top-level discriminant is outside the known set
makes the converter return the unsupported-kind decode failure carrying the
raw discriminant, and the lazy cursor's fetch_next advances past such a
record exactly as if it were not in the queue. -/
theorem unsupported_kind_skipped (ev : SDL_Event) (cur : event)
    (q : List SDL_Event) (h : ev.type ∉ known_event_types) :
    from_sdl_event ev = .error (.unsupported_kind ev.type) ∧
    fetch_next cur (ev :: q) = fetch_next cur q := by
  have hconv := from_sdl_event_not_known ev h
  exact ⟨hconv, fetch_next_cons_error cur ev q _ hconv⟩

/-- C2 witness: discriminant 4096 is outside the known set; the converter
reports it and the cursor skips the record. -/
theorem unsupported_kind_skipped_witness :
    from_sdl_event { sdl_zero with type := 4096 } =
      .error (.unsupported_kind 4096) ∧
    fetch_next default_event [{ sdl_zero with type := 4096 }] =
      fetch_next default_event [] :=
  unsupported_kind_skipped { sdl_zero with type := 4096 } default_event []
    (by decide)

/-- C3: for every snapshot of pending raw records, fully draining the lazy
cursor from its begin state yields exactly the sequence the eager collection
materializes from the same snapshot; in particular both skip exactly the same
unsupported records. -/
theorem lazy_eager_equivalence (pending : List SDL_Event) :
    drain_iterator (begin_state pending).1 (begin_state pending).2 =
      (event_range_construct pending).m_events := by
  induction pending with
  | nil => simp [begin_state, fetch_next, drain_iterator,
      event_range_construct, poll_drain]
  | cons e rest ih =>
    cases h : from_sdl_event e with
    | ok ev =>
      rw [event_range_construct]
      simp only [begin_state, fetch_next_cons_ok _ _ _ _ h]
      rw [drain_iterator]
      simp only [poll_drain, h]
      rw [drain_next_eq_poll_drain]
    | error err =>
      have h1 : begin_state (e :: rest) = begin_state rest := by
        simp only [begin_state, fetch_next_cons_error _ _ _ _ h]
      rw [h1, ih]
      simp [event_range_construct, poll_drain, h]

/-- C4: the eager collection drains the whole snapshot, keeping exactly the
successfully converted events in arrival order (the order-preserving
filterMap of the converter); unsupported records vanish without trace, and
no coalescing happens: two identical consecutive convertible records
contribute two consecutive identical elements. -/
theorem eager_range_order_and_skip (pending : List SDL_Event)
    (e : SDL_Event) (tv : event) (q : List SDL_Event)
    (h : from_sdl_event e = .ok tv) :
    (event_range_construct pending).m_events =
      pending.filterMap (fun r => (from_sdl_event r).toOption) ∧
    (event_range_construct (e :: e :: q)).m_events =
      tv :: tv :: (event_range_construct q).m_events := by
  constructor
  · exact poll_drain_eq_filterMap pending
  · simp [event_range_construct, poll_drain, h]

/-- C4 witness: two identical quit records materialize as two identical
events, and the filterMap characterization holds on a concrete snapshot that
mixes a convertible and an unsupported record. -/
theorem eager_range_order_and_skip_witness :
    (event_range_construct
        [{ sdl_zero with type := SDL_EVENT_QUIT },
         { sdl_zero with type := 4096 }]).m_events =
      [{ sdl_zero with type := SDL_EVENT_QUIT },
       { sdl_zero with type := 4096 }].filterMap
        (fun r => (from_sdl_event r).toOption) ∧
    (event_range_construct
        [{ sdl_zero with type := SDL_EVENT_QUIT },
         { sdl_zero with type := SDL_EVENT_QUIT }]).m_events =
      .quit { timestamp := 0 } :: .quit { timestamp := 0 } ::
        (event_range_construct []).m_events :=
  eager_range_order_and_skip
    [{ sdl_zero with type := SDL_EVENT_QUIT },
     { sdl_zero with type := 4096 }]
    { sdl_zero with type := SDL_EVENT_QUIT } (.quit { timestamp := 0 }) []
    rfl

/-- C5: the wait primitives are asymmetric on decode failure: wait_event
skips a record that fails to convert and keeps waiting, returning none only
when the underlying wait itself fails, while wait_event_timeout returns none
for that call as soon as a pulled record fails to convert, without retrying
against the remaining budget; both return the converted event when the
pulled record is convertible, and none when the underlying wait produces
nothing. -/
theorem wait_retry_asymmetry (bad good : SDL_Event) (q : List SDL_Event)
    (ev : event) (err : decode_error)
    (hb : from_sdl_event bad = .error err)
    (hg : from_sdl_event good = .ok ev) :
    wait_event (bad :: q) = wait_event q ∧
    wait_event_timeout (bad :: q) = none ∧
    wait_event (good :: q) = some ev ∧
    wait_event_timeout (good :: q) = some ev ∧
    wait_event [] = none ∧
    wait_event_timeout [] = none := by
  refine ⟨?_, ?_, ?_, ?_, rfl, rfl⟩
  · simp [wait_event, hb]
  · simp [wait_event_timeout, hb]
  · simp [wait_event, hg]
  · simp [wait_event_timeout, hg]

/-- C5 witness: with an unsupported record (discriminant 4096) and a quit
record, the asymmetry is exhibited concretely. -/
theorem wait_retry_asymmetry_witness :
    wait_event [{ sdl_zero with type := 4096 }] = wait_event [] ∧
    wait_event_timeout [{ sdl_zero with type := 4096 }] = none ∧
    wait_event [{ sdl_zero with type := SDL_EVENT_QUIT }] =
      some (.quit { timestamp := 0 }) ∧
    wait_event_timeout [{ sdl_zero with type := SDL_EVENT_QUIT }] =
      some (.quit { timestamp := 0 }) ∧
    wait_event [] = none ∧
    wait_event_timeout [] = none :=
  wait_retry_asymmetry { sdl_zero with type := 4096 }
    { sdl_zero with type := SDL_EVENT_QUIT } [] (.quit { timestamp := 0 })
    (.unsupported_kind 4096) rfl rfl

/-- C7: cursor equality is determined solely by the has-current-event flags,
not by position or current content; any two terminal cursors compare equal,
even cursors advanced to completion over different queues, and over the
empty queue the begin cursor immediately equals the end sentinel. -/
theorem iterator_equality_flag_only (a b : event_view_iterator)
    (e1 e2 : event) (q1 q2 : List SDL_Event)
    (ha : a.m_has_event = false) (hb : b.m_has_event = false) :
    (∀ x y : event_view_iterator,
        iterator_beq x y = true ↔ x.m_has_event = y.m_has_event) ∧
    iterator_beq { m_current_event := e1, m_has_event := true }
      { m_current_event := e2, m_has_event := true } = true ∧
    iterator_beq a b = true ∧
    iterator_beq (advance_to_end a q1) (advance_to_end b q2) = true ∧
    iterator_beq (begin_state []).1 end_iterator = true := by
  refine ⟨?_, rfl, ?_, ?_, rfl⟩
  · intro x y
    simp [iterator_beq]
  · simp [iterator_beq, ha, hb]
  · simp [iterator_beq, advance_to_end_flag]

/-- C7 witness: two end sentinels compare equal and begin of the empty queue
equals end. -/
theorem iterator_equality_flag_only_witness :
    (∀ x y : event_view_iterator,
        iterator_beq x y = true ↔ x.m_has_event = y.m_has_event) ∧
    iterator_beq { m_current_event := default_event, m_has_event := true }
      { m_current_event := default_event, m_has_event := true } = true ∧
    iterator_beq end_iterator end_iterator = true ∧
    iterator_beq (advance_to_end end_iterator [])
      (advance_to_end end_iterator []) = true ∧
    iterator_beq (begin_state []).1 end_iterator = true :=
  iterator_equality_flag_only end_iterator end_iterator default_event
    default_event [] [] rfl rfl

/-- C9: the mouse-button mapping: raw codes 1..5 map to left, middle, right,
x1, x2 respectively, every other raw code is coerced to left, the mapping
always lands in the closed five-element set, and conversion of a
mouse-button record never fails. -/
theorem mouse_button_closed_set (b : Nat) (ev : SDL_Event)
    (h : b ∉ [SDL_BUTTON_LEFT, SDL_BUTTON_MIDDLE, SDL_BUTTON_RIGHT,
              SDL_BUTTON_X1, SDL_BUTTON_X2]) :
    sdl_button_to_button SDL_BUTTON_LEFT = .left ∧
    sdl_button_to_button SDL_BUTTON_MIDDLE = .middle ∧
    sdl_button_to_button SDL_BUTTON_RIGHT = .right ∧
    sdl_button_to_button SDL_BUTTON_X1 = .x1 ∧
    sdl_button_to_button SDL_BUTTON_X2 = .x2 ∧
    sdl_button_to_button b = .left ∧
    (∀ c : Nat, sdl_button_to_button c ∈
        [mouse_button.left, .middle, .right, .x1, .x2]) ∧
    from_sdl_event { ev with type := SDL_EVENT_MOUSE_BUTTON_DOWN } =
      .ok (.mouse_button { timestamp := u32 ev.button.timestamp
                           id := { value := ev.button.windowID }
                           which := ev.button.which
                           mouse_button :=
                             sdl_button_to_button ev.button.button
                           button_state := .pressed
                           clicks := ev.button.clicks
                           x := float_to_int32 ev.button.x
                           y := float_to_int32 ev.button.y }) ∧
    from_sdl_event { ev with type := SDL_EVENT_MOUSE_BUTTON_UP } =
      .ok (.mouse_button { timestamp := u32 ev.button.timestamp
                           id := { value := ev.button.windowID }
                           which := ev.button.which
                           mouse_button :=
                             sdl_button_to_button ev.button.button
                           button_state := .released
                           clicks := ev.button.clicks
                           x := float_to_int32 ev.button.x
                           y := float_to_int32 ev.button.y }) := by
  simp only [List.mem_cons, List.not_mem_nil, not_or, or_false] at h
  obtain ⟨h1, h2, h3, h4, h5⟩ := h
  refine ⟨rfl, rfl, rfl, rfl, rfl, ?_, ?_, rfl, rfl⟩
  · simp [sdl_button_to_button, h1, h2, h3, h4, h5]
  · intro c
    unfold sdl_button_to_button
    split_ifs <;> simp

/-- C9 witness: raw code 9 is outside 1..5 and is coerced to left; the
mapping facts and the always-successful conversion hold on the zero
record. -/
theorem mouse_button_closed_set_witness :
    sdl_button_to_button SDL_BUTTON_LEFT = .left ∧
    sdl_button_to_button SDL_BUTTON_MIDDLE = .middle ∧
    sdl_button_to_button SDL_BUTTON_RIGHT = .right ∧
    sdl_button_to_button SDL_BUTTON_X1 = .x1 ∧
    sdl_button_to_button SDL_BUTTON_X2 = .x2 ∧
    sdl_button_to_button 9 = .left ∧
    (∀ c : Nat, sdl_button_to_button c ∈
        [mouse_button.left, .middle, .right, .x1, .x2]) ∧
    from_sdl_event { sdl_zero with type := SDL_EVENT_MOUSE_BUTTON_DOWN } =
      .ok (.mouse_button { timestamp := u32 sdl_zero.button.timestamp
                           id := { value := sdl_zero.button.windowID }
                           which := sdl_zero.button.which
                           mouse_button :=
                             sdl_button_to_button sdl_zero.button.button
                           button_state := .pressed
                           clicks := sdl_zero.button.clicks
                           x := float_to_int32 sdl_zero.button.x
                           y := float_to_int32 sdl_zero.button.y }) ∧
    from_sdl_event { sdl_zero with type := SDL_EVENT_MOUSE_BUTTON_UP } =
      .ok (.mouse_button { timestamp := u32 sdl_zero.button.timestamp
                           id := { value := sdl_zero.button.windowID }
                           which := sdl_zero.button.which
                           mouse_button :=
                             sdl_button_to_button sdl_zero.button.button
                           button_state := .released
                           clicks := sdl_zero.button.clicks
                           x := float_to_int32 sdl_zero.button.x
                           y := float_to_int32 sdl_zero.button.y }) :=
  mouse_button_closed_set 9 sdl_zero (by decide)

/-- C10: the take_focus window-event kind is unreachable through conversion:
whenever the converter produces a window event, its kind is not take_focus,
although take_focus is a declared member of the enumeration. -/
theorem take_focus_unreachable (ev : SDL_Event) (w : window_event)
    (h : from_sdl_event ev = .ok (.window w)) :
    w.event_type ≠ window_event_type.take_focus := by
  by_cases hm : ev.type ∈ sdl_window_event_types
  · rw [from_sdl_event_window_mem ev hm] at h
    cases hcw : convert_window_event_data ev.type ev.window.data1
        ev.window.data2 with
    | error e =>
      rw [hcw] at h
      simp [Except.map] at h
    | ok p =>
      rw [hcw] at h
      simp only [Except.map, Except.ok.injEq] at h
      injection h with h2
      have ht := convert_window_event_data_ne_take_focus ev.type
        ev.window.data1 ev.window.data2 p.1 p.2 (by rw [hcw])
      rw [← h2]
      exact ht
  · by_cases hk : ev.type ∈ known_event_types
    · simp only [known_event_types, List.mem_cons, List.mem_append,
        List.not_mem_nil, or_false] at hk
      rcases hk with (h1 | h1) | h1 | h1 | h1 | h1 | h1 | h1 | h1 | h1 |
        h1 | h1 | h1 | h1
      · simp [from_sdl_event, h1] at h
      · exact absurd h1 hm
      all_goals
        simp [from_sdl_event, h1, sdl_window_event_types, SDL_EVENT_QUIT,
          SDL_EVENT_WINDOW_SHOWN, SDL_EVENT_WINDOW_HIDDEN,
          SDL_EVENT_WINDOW_EXPOSED, SDL_EVENT_WINDOW_MOVED,
          SDL_EVENT_WINDOW_RESIZED, SDL_EVENT_WINDOW_PIXEL_SIZE_CHANGED,
          SDL_EVENT_WINDOW_MINIMIZED, SDL_EVENT_WINDOW_MAXIMIZED,
          SDL_EVENT_WINDOW_RESTORED, SDL_EVENT_WINDOW_MOUSE_ENTER,
          SDL_EVENT_WINDOW_MOUSE_LEAVE, SDL_EVENT_WINDOW_FOCUS_GAINED,
          SDL_EVENT_WINDOW_FOCUS_LOST, SDL_EVENT_WINDOW_CLOSE_REQUESTED,
          SDL_EVENT_WINDOW_HIT_TEST, SDL_EVENT_WINDOW_ICCPROF_CHANGED,
          SDL_EVENT_WINDOW_DISPLAY_CHANGED, SDL_EVENT_KEY_DOWN,
          SDL_EVENT_KEY_UP, SDL_EVENT_TEXT_EDITING, SDL_EVENT_TEXT_INPUT,
          SDL_EVENT_MOUSE_MOTION, SDL_EVENT_MOUSE_BUTTON_DOWN,
          SDL_EVENT_MOUSE_BUTTON_UP, SDL_EVENT_MOUSE_WHEEL,
          SDL_EVENT_JOYSTICK_AXIS_MOTION, SDL_EVENT_JOYSTICK_BUTTON_DOWN,
          SDL_EVENT_JOYSTICK_BUTTON_UP, SDL_EVENT_JOYSTICK_HAT_MOTION] at h
    · rw [from_sdl_event_not_known ev hk] at h
      exact Except.noConfusion h

/-- C10 witness: converting a shown window record yields a window event, and
its kind is not take_focus. -/
theorem take_focus_unreachable_witness :
    ({ timestamp := 0, id := { value := 0 },
       event_type := window_event_type.shown,
       data := .window_event_data_none } : window_event).event_type ≠
      window_event_type.take_focus :=
  take_focus_unreachable { sdl_zero with type := SDL_EVENT_WINDOW_SHOWN }
    { timestamp := 0, id := { value := 0 },
      event_type := window_event_type.shown,
      data := .window_event_data_none } rfl

/-- Reading back a buffer made of nonzero bytes followed by at least one
zero recovers exactly the nonzero bytes. -/
theorem c_str_append_replicate_zero (l : List Nat) (k : Nat)
    (h : ∀ b ∈ l, b ≠ 0) (hk : 0 < k) :
    c_str (l ++ List.replicate k 0) = l := by
  induction l with
  | nil =>
    cases k with
    | zero => exact absurd hk (by decide)
    | succ m => simp [c_str, List.replicate_succ, List.takeWhile_cons]
  | cons a t ih =>
    have ha : a ≠ 0 := h a (by simp)
    have ht := ih (fun b hb => h b (by simp [hb]))
    simp only [c_str] at ht ⊢
    rw [List.cons_append, List.takeWhile_cons, if_pos (decide_eq_true ha),
      ht]

/-- Every byte kept by the strncpy copy is nonzero. -/
theorem copied_bytes_ne_zero (src : List Nat) (b : Nat)
    (hb : b ∈ (src.takeWhile (fun c => c ≠ 0)).take 31) : b ≠ 0 := by
  have h1 : b ∈ src.takeWhile (fun c => c ≠ 0) := List.mem_of_mem_take hb
  have h2 := List.mem_takeWhile_imp h1
  simpa using h2

/-- The copied prefix occupies at most 31 of the 32 buffer bytes. -/
theorem copied_length_le (src : List Nat) :
    ((src.takeWhile (fun c => c ≠ 0)).take 31).length ≤ 31 := by
  rw [List.length_take]
  exact Nat.min_le_left 31 _

/-- C6 counterexample: the truncation is purely byte-positional and does not
cut earlier at a UTF-8 character boundary.  A 33-byte source of 30 ASCII
bytes followed by one three-byte UTF-8 character decodes to exactly 31
bytes: the 30 ASCII bytes plus the lead byte 226 of the split character (the
byte after the cut, 130, is a UTF-8 continuation byte), not to the 30-byte
boundary-respecting prefix the claim describes. -/
theorem text_truncation_splits_utf8_char :
    (List.replicate 30 97 ++ [226, 130, 172]).length = 33 ∧
    from_sdl_event { sdl_zero with
      type := SDL_EVENT_TEXT_INPUT,
      text := { timestamp := 0, windowID := 0,
                text := List.replicate 30 97 ++ [226, 130, 172] } } =
      .ok (.text_input { timestamp := 0
                         id := { value := 0 }
                         text := sdl_text_copy
                           (List.replicate 30 97 ++ [226, 130, 172]) }) ∧
    c_str (sdl_text_copy (List.replicate 30 97 ++ [226, 130, 172])) =
      List.replicate 30 97 ++ [226] ∧
    (c_str (sdl_text_copy
        (List.replicate 30 97 ++ [226, 130, 172]))).length = 31 ∧
    (List.replicate 30 97 ++ [226, 130, 172])[30]? = some 226 ∧
    (224 ≤ 226 ∧ 226 < 240) ∧
    (List.replicate 30 97 ++ [226, 130, 172])[31]? = some 130 ∧
    (128 ≤ 130 ∧ 130 < 192) :=
  ⟨by decide, rfl, by decide, by decide, by decide, by decide, by decide,
   by decide⟩

/-- C6 amended: for every text-input or text-editing record the converted
event's 32-byte text buffer is always NUL-terminated (its last byte is 0);
a source of length at least 32 decodes to exactly 31 bytes, the cut being
purely byte-positional and possibly splitting a multi-byte UTF-8 character;
a source of length 0 decodes to the empty NUL-terminated string. -/
theorem text_truncation_amended (ev : SDL_Event) (src : List Nat)
    (h0 : ∀ b ∈ src, b ≠ 0) :
    from_sdl_event { ev with
      type := SDL_EVENT_TEXT_INPUT,
      text := { ev.text with text := src } } =
      .ok (.text_input { timestamp := u32 ev.text.timestamp
                         id := { value := ev.text.windowID }
                         text := sdl_text_copy src }) ∧
    from_sdl_event { ev with
      type := SDL_EVENT_TEXT_EDITING,
      edit := { ev.edit with text := src } } =
      .ok (.text_editing { timestamp := u32 ev.edit.timestamp
                           id := { value := ev.edit.windowID }
                           text := sdl_text_copy src
                           start := ev.edit.start
                           length := ev.edit.length }) ∧
    (sdl_text_copy src).length = 32 ∧
    (sdl_text_copy src)[31]? = some 0 ∧
    (c_str (sdl_text_copy src)).length ≤ 31 ∧
    (src.length ≥ 32 → c_str (sdl_text_copy src) = src.take 31 ∧
      (c_str (sdl_text_copy src)).length = 31) ∧
    (src = [] → c_str (sdl_text_copy src) = []) := by
  have hts : src.takeWhile (fun c => c ≠ 0) = src :=
    List.takeWhile_eq_self_iff.mpr (fun b hb => by simp [h0 b hb])
  have hcl := copied_length_le src
  have hcs : c_str (sdl_text_copy src) =
      (src.takeWhile (fun c => c ≠ 0)).take 31 := by
    unfold sdl_text_copy
    exact c_str_append_replicate_zero _ _ (copied_bytes_ne_zero src)
      (by omega)
  refine ⟨rfl, rfl, ?_, ?_, ?_, ?_, ?_⟩
  · unfold sdl_text_copy
    rw [List.length_append, List.length_replicate]
    omega
  · unfold sdl_text_copy
    rw [List.getElem?_append_right hcl, List.getElem?_replicate]
    rw [if_pos (by omega)]
  · rw [hcs]
    exact hcl
  · intro hge
    have htake : (src.takeWhile (fun c => c ≠ 0)).take 31 = src.take 31 :=
      by rw [hts]
    constructor
    · rw [hcs, htake]
    · rw [hcs, htake, List.length_take]
      omega
  · intro hnil
    subst hnil
    decide

/-- C6 amended witness: a 40-byte all-ASCII source decodes to its 31-byte
prefix with the terminator in the last buffer byte. -/
theorem text_truncation_amended_witness :
    (sdl_text_copy (List.replicate 40 97)).length = 32 ∧
    (sdl_text_copy (List.replicate 40 97))[31]? = some 0 ∧
    c_str (sdl_text_copy (List.replicate 40 97)) =
      (List.replicate 40 97).take 31 ∧
    (c_str (sdl_text_copy (List.replicate 40 97))).length = 31 := by
  have h := text_truncation_amended sdl_zero (List.replicate 40 97)
    (by decide)
  have h2 := h.2.2.2.2.2.1 (by decide)
  exact ⟨h.2.2.1, h.2.2.2.1, h2.1, h2.2⟩

/-- C8 counterexample: scalar fields are not all copied byte-for-byte.  SDL3
timestamps are 64-bit nanosecond counters while the typed events store
32-bit timestamps, so a quit record with timestamp 2^32 (about 4.3 seconds
after boot) converts to a typed event whose timestamp is 0, not 2^32. -/
theorem timestamp_narrowing_counterexample :
    from_sdl_event { sdl_zero with
      type := SDL_EVENT_QUIT,
      quit := { timestamp := 4294967296 } } =
      .ok (.quit { timestamp := 0 }) ∧
    (4294967296 : Nat) ≠ 0 :=
  ⟨rfl, by decide⟩

/-- C8 amended: for every raw record of a supported kind each scalar field
is copied through the implicit conversion to the typed field's declared
type: 64-bit timestamps are reduced modulo 2^32, float mouse coordinates are
truncated toward zero to 32-bit integers, and every other scalar field
(window id, device ids, button and axis and hat indices, axis values, click
counts, key codes, modifier bits, selection start and length, wheel
direction, and the float precise wheel values) is copied verbatim. -/
theorem scalar_copy_with_narrowing (ev : SDL_Event) :
    from_sdl_event { ev with type := SDL_EVENT_QUIT } =
      .ok (.quit { timestamp := u32 ev.quit.timestamp }) ∧
    from_sdl_event { ev with type := SDL_EVENT_WINDOW_MOVED } =
      .ok (.window { timestamp := u32 ev.window.timestamp
                     id := { value := ev.window.windowID }
                     event_type := .moved
                     data := .window_event_data_position ev.window.data1
                               ev.window.data2 }) ∧
    from_sdl_event { ev with type := SDL_EVENT_KEY_DOWN } =
      .ok (.key { timestamp := u32 ev.key.timestamp
                  id := { value := ev.key.windowID }
                  key_state := .pressed
                  scancode := ev.key.scancode
                  keycode := ev.key.key
                  mod := ev.key.mod
                  key_repeat := ev.key.key_repeat }) ∧
    from_sdl_event { ev with type := SDL_EVENT_KEY_UP } =
      .ok (.key { timestamp := u32 ev.key.timestamp
                  id := { value := ev.key.windowID }
                  key_state := .released
                  scancode := ev.key.scancode
                  keycode := ev.key.key
                  mod := ev.key.mod
                  key_repeat := ev.key.key_repeat }) ∧
    from_sdl_event { ev with type := SDL_EVENT_TEXT_INPUT } =
      .ok (.text_input { timestamp := u32 ev.text.timestamp
                         id := { value := ev.text.windowID }
                         text := sdl_text_copy ev.text.text }) ∧
    from_sdl_event { ev with type := SDL_EVENT_TEXT_EDITING } =
      .ok (.text_editing { timestamp := u32 ev.edit.timestamp
                           id := { value := ev.edit.windowID }
                           text := sdl_text_copy ev.edit.text
                           start := ev.edit.start
                           length := ev.edit.length }) ∧
    from_sdl_event { ev with type := SDL_EVENT_MOUSE_MOTION } =
      .ok (.mouse_motion { timestamp := u32 ev.motion.timestamp
                           id := { value := ev.motion.windowID }
                           which := ev.motion.which
                           state := ev.motion.state
                           x := float_to_int32 ev.motion.x
                           y := float_to_int32 ev.motion.y
                           xrel := float_to_int32 ev.motion.xrel
                           yrel := float_to_int32 ev.motion.yrel }) ∧
    from_sdl_event { ev with type := SDL_EVENT_MOUSE_BUTTON_DOWN } =
      .ok (.mouse_button { timestamp := u32 ev.button.timestamp
                           id := { value := ev.button.windowID }
                           which := ev.button.which
                           mouse_button :=
                             sdl_button_to_button ev.button.button
                           button_state := .pressed
                           clicks := ev.button.clicks
                           x := float_to_int32 ev.button.x
                           y := float_to_int32 ev.button.y }) ∧
    from_sdl_event { ev with type := SDL_EVENT_MOUSE_WHEEL } =
      .ok (.mouse_wheel { timestamp := u32 ev.wheel.timestamp
                          id := { value := ev.wheel.windowID }
                          which := ev.wheel.which
                          x := float_to_int32 ev.wheel.x
                          y := float_to_int32 ev.wheel.y
                          precise_x := ev.wheel.x
                          precise_y := ev.wheel.y
                          direction := ev.wheel.direction }) ∧
    from_sdl_event { ev with type := SDL_EVENT_JOYSTICK_AXIS_MOTION } =
      .ok (.joystick_axis { timestamp := u32 ev.jaxis.timestamp
                            which := ev.jaxis.which
                            axis := ev.jaxis.axis
                            value := ev.jaxis.value }) ∧
    from_sdl_event { ev with type := SDL_EVENT_JOYSTICK_BUTTON_DOWN } =
      .ok (.joystick_button { timestamp := u32 ev.jbutton.timestamp
                              which := ev.jbutton.which
                              button := ev.jbutton.button
                              button_state := .pressed }) ∧
    from_sdl_event { ev with type := SDL_EVENT_JOYSTICK_BUTTON_UP } =
      .ok (.joystick_button { timestamp := u32 ev.jbutton.timestamp
                              which := ev.jbutton.which
                              button := ev.jbutton.button
                              button_state := .released }) ∧
    from_sdl_event { ev with type := SDL_EVENT_JOYSTICK_HAT_MOTION } =
      .ok (.joystick_hat { timestamp := u32 ev.jhat.timestamp
                           which := ev.jhat.which
                           hat := ev.jhat.hat
                           value := ev.jhat.value }) :=
  ⟨rfl, rfl, rfl, rfl, rfl, rfl, rfl, rfl, rfl, rfl, rfl, rfl, rfl⟩

end laya
